import Mathlib

/-!
Verification of the EchoVerse Streamlit app (`app.py`) against its
natural-language specification.

Shallow embedding: the app's script body and its helper functions are
translated to pure Lean functions.  External effects are modelled as
oracles passed in through an `Env` record:

* `rewrite` models the whole `try` body of `get_rewritten_text`
  (construction of the model, the remote `generate_content` call and the
  `response.text` accessor): `Except.ok t` means the call returned text
  `t`, `Except.error e` means some exception with message `e` was raised
  inside the `try`.
* `tts` models `edge_tts.Communicate(text, voice)` plus
  `communicate.save(output_file)`: `Except.ok ()` means the audio file
  was written, `Except.error e` an exception with message `e`.
* `fs` gives the bytes found at a path when the handler re-opens the
  file written by `generate_audio`.

Every Streamlit UI effect (st.error, st.warning, st.success, st.spinner,
st.audio, st.download_button, ...) and every attempted remote call is
recorded in an event list, in program order.  A Python exception that is
not caught inside the handler is modelled by the handler returning
`Except.error`; functions whose whole body is guarded by `try/except`
are total and return plain values.
-/

/-- Observable effects of one run of the script, in program order. -/
inductive Event where
  | errorMsg (msg : String) : Event
  | warningMsg (msg : String) : Event
  | successMsg (msg : String) : Event
  | infoMsg (msg : String) : Event
  | spinnerMsg (msg : String) : Event
  | rewriteCall (prompt : String) : Event
  | speechCall (text voice : String) : Event
  | pageConfig : Event
  | titleRender : Event
  | audioPlayer (bytes : List Nat) : Event
  | downloadButton (label : String) (bytes : List Nat) (fileName mime : String) : Event
  | configureCall (key : String) : Event
  deriving Repr, DecidableEq

/-- An event is a remote service call (rewrite API or speech API). -/
def Event.isRemoteCall : Event → Bool
  | Event.rewriteCall _ => true
  | Event.speechCall _ _ => true
  | _ => false

/-- An event is a download-button render. -/
def Event.isDownload : Event → Bool
  | Event.downloadButton _ _ _ _ => true
  | _ => false

/-- The remote calls attempted during a run, in order. -/
def callsOf (evs : List Event) : List Event :=
  evs.filter Event.isRemoteCall

/-- The external world: remote services and the local filesystem. -/
structure Env where
  rewrite : String → Except String String
  tts : String → String → Except String Unit
  fs : String → List Nat

/-- The three `st.session_state` values of the app. -/
structure AppState where
  original_text : String
  rewritten_text : String
  audio_file : Option (List Nat)
  deriving Repr, DecidableEq

/-- What the handler can observe about an uploaded file:
its MIME type, the result of `uploaded_file.read().decode("utf-8")`
(`Except.error` = a `UnicodeDecodeError`), and the result of parsing it
with `Document(file)` as a list of paragraph texts
(`Except.error` = any exception raised by the docx library). -/
structure UploadedFile where
  ftype : String
  txtContent : Except String String
  docxParas : Except String (List String)
  deriving Repr

/-- MIME type Streamlit reports for a `.docx` upload (app.py line 183). -/
def docxMime : String :=
  "application/vnd.openxmlformats-officedocument.wordprocessingml.document"

/-- `read_docx` (app.py lines 106-112): join the paragraph texts with
newlines; any exception is caught, shown with `st.error`, and the empty
string is returned. -/
def read_docx (file : Except String (List String)) : String × List Event :=
  match file with
  | Except.ok paras => (String.intercalate "\n" paras, [])
  | Except.error e => ("", [Event.errorMsg ("Error reading DOCX file: " ++ e)])

/-- The prompt built inside `get_rewritten_text` (app.py lines 119-124). -/
def mkPrompt (original_text tone gender prompt_addition : String) : String :=
  "Rewrite the following text in a " ++ tone ++ " tone. " ++
  "The narration is intended for a " ++ gender ++ " voice. " ++
  prompt_addition ++ "\n\n" ++
  "Original text:\n---\n" ++ original_text ++ "\n---\nRewritten text:"

/-- `get_rewritten_text` (app.py lines 114-129).  The empty-string guard
mirrors `if not original_text`.  The whole remainder of the body is
inside `try`, so a failure of the oracle is caught, shown with
`st.error`, and the empty string is returned; the function never
propagates an exception, hence its plain (non-`Except`) result type. -/
def get_rewritten_text (rw : String → Except String String)
    (original_text tone gender prompt_addition : String) : String × List Event :=
  if original_text = "" then ("", [])
  else
    let prompt := mkPrompt original_text tone gender prompt_addition
    match rw prompt with
    | Except.ok t => (t, [Event.rewriteCall prompt])
    | Except.error e =>
        ("", [Event.rewriteCall prompt,
              Event.errorMsg ("An error occurred with the AI model: " ++ e)])

/-- The `voice_map` dictionary of `generate_audio` (app.py line 132). -/
def voice_map : List (String × String) :=
  [("Male", "en-US-GuyNeural"), ("Female", "en-US-JennyNeural")]

/-- `voice_map.get(gender, "en-US-JennyNeural")` (app.py line 133). -/
def voiceFor (gender : String) : String :=
  match voice_map.lookup gender with
  | some v => v
  | none => "en-US-JennyNeural"

/-- `generate_audio` (app.py lines 131-140).  Voice selection happens
before the `try`; the `Communicate`/`save` pair is inside it, so a
failure is caught, shown with `st.error`, and `None` is returned; the
function never propagates an exception, hence its plain result type.
Python's default argument `output_file="narration.mp3"` is passed
explicitly by the caller here. -/
def generate_audio (tts : String → String → Except String Unit)
    (text gender output_file : String) : Option String × List Event :=
  let voice := voiceFor gender
  match tts text voice with
  | Except.ok _ => (some output_file, [Event.speechCall text voice])
  | Except.error e =>
      (none, [Event.speechCall text voice,
              Event.errorMsg ("Failed to generate audio: " ++ e)])

/-- Message shown by `st.warning` when the collected text is blank
(app.py line 202). -/
def warnMsg : String :=
  "Please enter some text or upload a file to generate an audiobook."

/-- Spinner text (app.py line 189). -/
def spinMsg : String :=
  "EchoVerse AI is warming up... Rewriting text and tuning vocal cords..."

/-- Success message (app.py line 196). -/
def successText : String := "Audiobook generated successfully!"

/-- Error message when the rewrite produced nothing (app.py line 200). -/
def rewriteFailMsg : String :=
  "The AI could not rewrite the text. Please check your input or try again."

/-- Error message when `generate_audio` returned `None` (app.py line 198). -/
def audioFailMsg : String := "Could not generate audio. Please try again."

/-- Python's `str.strip()`: drop whitespace from both ends of the
string.  (Defined by structural recursion on the character list so that
it evaluates on concrete inputs.) -/
def pyStrip (s : String) : String :=
  String.mk (((s.data.dropWhile Char.isWhitespace).reverse.dropWhile
    Char.isWhitespace).reverse)

/-- Collection of `st.session_state.original_text` at the top of the
generate-button handler (app.py lines 180-186).  The `text/plain`
branch calls `.decode("utf-8")` with no `try/except`, so a decode
failure propagates (`Except.error`).  A file of any other type leaves
the session value unchanged; with no upload the pasted text is used. -/
def collectOriginal (st0 : AppState) (uploaded : Option UploadedFile)
    (text_input : String) : Except String (String × List Event) :=
  match uploaded with
  | some f =>
      if f.ftype = "text/plain" then
        match f.txtContent with
        | Except.ok s => Except.ok (s, [])
        | Except.error e => Except.error e
      else if f.ftype = docxMime then
        Except.ok (read_docx f.docxParas)
      else Except.ok (st0.original_text, [])
  | none => Except.ok (text_input, [])

/-- The body of the generate-button handler after `original_text` has
been stored (app.py lines 188-202): the `.strip()` truthiness test, the
rewrite call, the conditional speech call, the re-read of the audio
file into session state, and the success / error / warning messages. -/
def runGeneration (env : Env) (st1 : AppState)
    (tone gender prompt_addition : String) : AppState × List Event :=
  if pyStrip st1.original_text ≠ "" then
    let spin := [Event.spinnerMsg spinMsg]
    let rr := get_rewritten_text env.rewrite st1.original_text tone gender prompt_addition
    let st2 := { st1 with rewritten_text := rr.1 }
    if st2.rewritten_text ≠ "" then
      let ar := generate_audio env.tts st2.rewritten_text gender "narration.mp3"
      match ar.1 with
      | some p =>
          ({ st2 with audio_file := some (env.fs p) },
           spin ++ rr.2 ++ ar.2 ++ [Event.successMsg successText])
      | none =>
          (st2, spin ++ rr.2 ++ ar.2 ++ [Event.errorMsg audioFailMsg])
    else
      (st2, spin ++ rr.2 ++ [Event.errorMsg rewriteFailMsg])
  else
    (st1, [Event.warningMsg warnMsg])

/-- One press of the generate button (app.py lines 179-202).
`Except.error e` models a Python exception escaping the handler. -/
def handleGenerate (env : Env) (st0 : AppState) (uploaded : Option UploadedFile)
    (text_input tone gender prompt_addition : String) :
    Except String (AppState × List Event) :=
  match collectOriginal st0 uploaded text_input with
  | Except.error e => Except.error e
  | Except.ok (ot, evs1) =>
      let r := runGeneration env { st0 with original_text := ot } tone gender prompt_addition
      Except.ok (r.1, evs1 ++ r.2)

/-- The two result blocks at the bottom of the script (app.py lines
204-219): the text comparison is rendered when `rewritten_text` is
truthy, and the audio player plus download button when `audio_file` is
truthy (a non-`None`, non-empty bytes object). -/
def renderResults (s : AppState) : List Event :=
  (if s.rewritten_text ≠ "" then
     [Event.infoMsg s.original_text, Event.successMsg s.rewritten_text]
   else []) ++
  (match s.audio_file with
   | some bytes =>
       if bytes ≠ [] then
         [Event.audioPlayer bytes,
          Event.downloadButton "📥 Download MP3" bytes "echoverse_narration.mp3" "audio/mp3"]
       else []
   | none => [])

/-- Message shown when the API key is missing (app.py line 22). -/
def apiKeyErrMsg : String :=
  "Your Google AI API key is not configured. Please create a .env file or set the environment variable."

/-- The startup block (app.py lines 19-23): look up `GOOGLE_API_KEY` in
the (post-`load_dotenv`) environment; a `KeyError` is caught, an inline
error is shown and `st.stop()` halts the script (`true` = stopped). -/
def startupBlock (environ : String → Option String) : Bool × List Event :=
  match environ "GOOGLE_API_KEY" with
  | some k => (false, [Event.configureCall k])
  | none => (true, [Event.errorMsg apiKeyErrMsg])

/-- One full top-to-bottom run of the script: page config, the startup
credential check (stopping the script when it fails), then the page
body, optionally the button handler, and the result blocks. -/
def runScript (environ : String → Option String) (env : Env) (st0 : AppState)
    (buttonPressed : Bool) (uploaded : Option UploadedFile)
    (text_input tone gender prompt_addition : String) :
    Except String (AppState × List Event) :=
  let s := startupBlock environ
  if s.1 then Except.ok (st0, [Event.pageConfig] ++ s.2)
  else
    let uiEvs := [Event.pageConfig] ++ s.2 ++ [Event.titleRender]
    if buttonPressed then
      match handleGenerate env st0 uploaded text_input tone gender prompt_addition with
      | Except.ok r => Except.ok (r.1, uiEvs ++ r.2 ++ renderResults r.1)
      | Except.error e => Except.error e
    else Except.ok (st0, uiEvs ++ renderResults st0)

/-! ## Concrete witness inputs -/

/-- An environment in which both remote services succeed. -/
def env0 : Env := ⟨fun _ => Except.ok "ok", fun _ _ => Except.ok (), fun _ => [7]⟩

/-- An environment in which the rewrite succeeds and the speech call fails. -/
def envFail : Env :=
  ⟨fun _ => Except.ok "ok", fun _ _ => Except.error "tts down", fun _ => []⟩

/-- The initial session state of the app (app.py lines 155-160). -/
def st00 : AppState := ⟨"", "", none⟩

/-- A session state holding audio from an earlier generation. -/
def stPrev : AppState := ⟨"old", "oldrw", some [5]⟩

/-- The state after a fully successful run of `handleGenerate env0 st00
none "hi" "Neutral" "Female" ""`. -/
def stFull : AppState := ⟨"hi", "ok", some [7]⟩

/-- The events of that same run. -/
def evsFull : List Event :=
  [Event.spinnerMsg spinMsg,
   Event.rewriteCall (mkPrompt "hi" "Neutral" "Female" ""),
   Event.speechCall "ok" "en-US-JennyNeural",
   Event.successMsg successText]

/-- A plain-text upload that decodes cleanly. -/
def fileTxt : UploadedFile := ⟨"text/plain", Except.ok "hello", Except.ok []⟩

/-- A plain-text upload whose bytes are not valid UTF-8. -/
def badTxtFile : UploadedFile :=
  ⟨"text/plain", Except.error "UnicodeDecodeError: invalid start byte", Except.ok []⟩

/-- A docx upload the docx library cannot parse. -/
def badDocxFile : UploadedFile := ⟨docxMime, Except.ok "x", Except.error "corrupt"⟩

/-- The state after `handleGenerate env0 st00 (some fileTxt) ...`. -/
def stC8 : AppState := ⟨"hello", "ok", some [7]⟩

/-- The events of that same run. -/
def evsC8 : List Event :=
  [Event.spinnerMsg spinMsg,
   Event.rewriteCall (mkPrompt "hello" "Neutral" "Female" ""),
   Event.speechCall "ok" "en-US-JennyNeural",
   Event.successMsg successText]

/-! ## Helper lemmas -/

theorem ne_empty_of_strip_ne_empty {s : String} (h : pyStrip s ≠ "") : s ≠ "" := by
  intro he
  subst he
  exact h (by decide)

/-- Full case analysis of one execution of the handler body: blank
input, rewrite failure, rewrite returning the empty string, speech
failure, and full success. -/
theorem runGeneration_cases (env : Env) (st1 : AppState) (tone gender pa : String) :
    (pyStrip st1.original_text = "" ∧
      runGeneration env st1 tone gender pa = (st1, [Event.warningMsg warnMsg])) ∨
    (pyStrip st1.original_text ≠ "" ∧ ∃ e,
      env.rewrite (mkPrompt st1.original_text tone gender pa) = Except.error e ∧
      runGeneration env st1 tone gender pa =
        ({ st1 with rewritten_text := "" },
         [Event.spinnerMsg spinMsg,
          Event.rewriteCall (mkPrompt st1.original_text tone gender pa),
          Event.errorMsg ("An error occurred with the AI model: " ++ e),
          Event.errorMsg rewriteFailMsg])) ∨
    (pyStrip st1.original_text ≠ "" ∧
      env.rewrite (mkPrompt st1.original_text tone gender pa) = Except.ok "" ∧
      runGeneration env st1 tone gender pa =
        ({ st1 with rewritten_text := "" },
         [Event.spinnerMsg spinMsg,
          Event.rewriteCall (mkPrompt st1.original_text tone gender pa),
          Event.errorMsg rewriteFailMsg])) ∨
    (pyStrip st1.original_text ≠ "" ∧ ∃ t, t ≠ "" ∧
      env.rewrite (mkPrompt st1.original_text tone gender pa) = Except.ok t ∧
      ((∃ e2, env.tts t (voiceFor gender) = Except.error e2 ∧
         runGeneration env st1 tone gender pa =
           ({ st1 with rewritten_text := t },
            [Event.spinnerMsg spinMsg,
             Event.rewriteCall (mkPrompt st1.original_text tone gender pa),
             Event.speechCall t (voiceFor gender),
             Event.errorMsg ("Failed to generate audio: " ++ e2),
             Event.errorMsg audioFailMsg])) ∨
       (env.tts t (voiceFor gender) = Except.ok () ∧
         runGeneration env st1 tone gender pa =
           ({ st1 with rewritten_text := t, audio_file := some (env.fs "narration.mp3") },
            [Event.spinnerMsg spinMsg,
             Event.rewriteCall (mkPrompt st1.original_text tone gender pa),
             Event.speechCall t (voiceFor gender),
             Event.successMsg successText])))) := by
  by_cases hb : pyStrip st1.original_text = ""
  · exact Or.inl ⟨hb, by simp [runGeneration, hb]⟩
  · have hne : st1.original_text ≠ "" := ne_empty_of_strip_ne_empty hb
    right
    cases hr : env.rewrite (mkPrompt st1.original_text tone gender pa) with
    | error e =>
        exact Or.inl ⟨hb, e, rfl,
          by simp [runGeneration, get_rewritten_text, hb, hne, hr]⟩
    | ok t =>
        by_cases ht : t = ""
        · subst ht
          exact Or.inr (Or.inl ⟨hb, rfl,
            by simp [runGeneration, get_rewritten_text, hb, hne, hr]⟩)
        · refine Or.inr (Or.inr ⟨hb, t, ht, rfl, ?_⟩)
          cases ha : env.tts t (voiceFor gender) with
          | error e2 =>
              exact Or.inl ⟨e2, rfl,
                by simp [runGeneration, get_rewritten_text, generate_audio,
                         hb, hne, hr, ht, ha]⟩
          | ok u =>
              cases u
              exact Or.inr ⟨rfl,
                by simp [runGeneration, get_rewritten_text, generate_audio,
                         hb, hne, hr, ht, ha]⟩

/-- The events emitted while collecting the original text are at most a
docx read-error message: never a remote call, never a warning. -/
theorem collectOriginal_ok_events (st0 : AppState) (uploaded : Option UploadedFile)
    (ti ot : String) (evs1 : List Event)
    (h : collectOriginal st0 uploaded ti = Except.ok (ot, evs1)) :
    evs1 = [] ∨ ∃ e, evs1 = [Event.errorMsg ("Error reading DOCX file: " ++ e)] := by
  cases uploaded with
  | none =>
      simp [collectOriginal] at h
      exact Or.inl h.2
  | some f =>
      simp only [collectOriginal] at h
      split at h
      · cases hc : f.txtContent with
        | ok s => rw [hc] at h; simp at h; exact Or.inl h.2
        | error e => rw [hc] at h; cases h
      · split at h
        · cases hd : f.docxParas with
          | ok paras =>
              rw [hd] at h
              simp [read_docx] at h
              exact Or.inl h.2
          | error e =>
              rw [hd] at h
              simp [read_docx] at h
              exact Or.inr ⟨e, h.2.symm⟩
        · simp at h
          exact Or.inl h.2

/-- `runGeneration` never changes `original_text`. -/
theorem runGeneration_original (env : Env) (st1 : AppState) (tone gender pa : String) :
    (runGeneration env st1 tone gender pa).1.original_text = st1.original_text := by
  rcases runGeneration_cases env st1 tone gender pa with
    ⟨_, h⟩ | ⟨_, e, _, h⟩ | ⟨_, _, h⟩ | ⟨_, t, _, _, ⟨e2, _, h⟩ | ⟨_, h⟩⟩ <;>
    rw [h]

/-- Destructor for a successful run of the button handler. -/
theorem handleGenerate_ok (env : Env) (st0 : AppState) (uploaded : Option UploadedFile)
    (ti tone gender pa : String) (st1 : AppState) (evs : List Event)
    (h : handleGenerate env st0 uploaded ti tone gender pa = Except.ok (st1, evs)) :
    ∃ ot evs1,
      collectOriginal st0 uploaded ti = Except.ok (ot, evs1) ∧
      st1 = (runGeneration env { st0 with original_text := ot } tone gender pa).1 ∧
      evs = evs1 ++ (runGeneration env { st0 with original_text := ot } tone gender pa).2 := by
  unfold handleGenerate at h
  cases hc : collectOriginal st0 uploaded ti with
  | error e => rw [hc] at h; cases h
  | ok pr =>
      obtain ⟨ot, evs1⟩ := pr
      rw [hc] at h
      simp at h
      exact ⟨ot, evs1, rfl, h.1.symm, h.2.symm⟩

/-! ## Claim theorems -/

/-- Claim C10: voice selection in `generate_audio` is total: the gender
value "Male" selects "en-US-GuyNeural" and every other value, including
"Female", selects "en-US-JennyNeural". -/
theorem C10_voice_selection_total :
    voiceFor "Male" = "en-US-GuyNeural" ∧
    voiceFor "Female" = "en-US-JennyNeural" ∧
    ∀ g, g ≠ "Male" → voiceFor g = "en-US-JennyNeural" := by
  refine ⟨rfl, rfl, ?_⟩
  intro g hg
  by_cases hf : g = "Female"
  · subst hf; rfl
  · have h1 : (g == "Male") = false := beq_false_of_ne hg
    have h2 : (g == "Female") = false := beq_false_of_ne hf
    simp [voiceFor, voice_map, List.lookup, h1, h2]

theorem C10_voice_selection_total_witness :
    voiceFor "Male" = "en-US-GuyNeural" ∧
    voiceFor "Neutral" = "en-US-JennyNeural" :=
  ⟨C10_voice_selection_total.1,
   C10_voice_selection_total.2.2 "Neutral" (by decide)⟩

/-- Claim C7: whenever audio is present in the session, the results
area offers exactly one download, an MP3 whose download filename is the
fixed constant "echoverse_narration.mp3", independently of every other
input. -/
theorem C7_fixed_download_filename (s : AppState) (bytes : List Nat)
    (h : s.audio_file = some bytes) (hb : bytes ≠ []) :
    (renderResults s).filter Event.isDownload =
      [Event.downloadButton "📥 Download MP3" bytes "echoverse_narration.mp3" "audio/mp3"] := by
  by_cases hr : s.rewritten_text = "" <;>
    simp [renderResults, h, hb, hr, Event.isDownload, List.filter_append]

theorem C7_fixed_download_filename_witness :
    (renderResults ⟨"a", "b", some [1]⟩).filter Event.isDownload =
      [Event.downloadButton "📥 Download MP3" [1] "echoverse_narration.mp3" "audio/mp3"] :=
  C7_fixed_download_filename ⟨"a", "b", some [1]⟩ [1] rfl (by decide)

/-- Claim C6: when `GOOGLE_API_KEY` is missing from the environment the
startup failure is caught, the inline error is shown, and the script
stops: the run renders nothing beyond the page config and that message
(in particular no title, no handler, no remote call) and leaves the
session state unchanged. -/
theorem C6_missing_key_stops (environ : String → Option String) (env : Env)
    (st0 : AppState) (pressed : Bool) (uploaded : Option UploadedFile)
    (ti tone gender pa : String)
    (h : environ "GOOGLE_API_KEY" = none) :
    runScript environ env st0 pressed uploaded ti tone gender pa =
      Except.ok (st0, [Event.pageConfig, Event.errorMsg apiKeyErrMsg]) ∧
    callsOf [Event.pageConfig, Event.errorMsg apiKeyErrMsg] = [] := by
  refine ⟨?_, rfl⟩
  simp [runScript, startupBlock, h]

theorem C6_missing_key_stops_witness :
    runScript (fun _ => none) env0 st00 true none "" "Neutral" "Female" "" =
      Except.ok (st00, [Event.pageConfig, Event.errorMsg apiKeyErrMsg]) ∧
    callsOf [Event.pageConfig, Event.errorMsg apiKeyErrMsg] = [] :=
  C6_missing_key_stops (fun _ => none) env0 st00 true none "" "Neutral" "Female" "" rfl

/-- Claim C1: a failure of the remote rewrite call inside
`get_rewritten_text` is caught and shown inline and the function
returns the empty string; a failure of the remote speech call inside
`generate_audio` is caught and shown inline and the function returns
`None`.  (Neither function can propagate an exception: their whole
bodies after the total prologue are inside `try`, which the embedding
reflects by giving both a plain, non-`Except` result type.) -/
theorem C1_remote_failures_caught (rw : String → Except String String)
    (tts : String → String → Except String Unit)
    (original_text tone gender prompt_addition txt g e1 e2 : String)
    (hne : original_text ≠ "")
    (h1 : rw (mkPrompt original_text tone gender prompt_addition) = Except.error e1)
    (h2 : tts txt (voiceFor g) = Except.error e2) :
    (get_rewritten_text rw original_text tone gender prompt_addition).1 = "" ∧
    Event.errorMsg ("An error occurred with the AI model: " ++ e1) ∈
      (get_rewritten_text rw original_text tone gender prompt_addition).2 ∧
    (generate_audio tts txt g "narration.mp3").1 = none ∧
    Event.errorMsg ("Failed to generate audio: " ++ e2) ∈
      (generate_audio tts txt g "narration.mp3").2 := by
  simp [get_rewritten_text, generate_audio, hne, h1, h2]

theorem C1_remote_failures_caught_witness :
    (get_rewritten_text (fun _ => Except.error "boom") "hi" "Neutral" "Female" "").1 = "" ∧
    Event.errorMsg ("An error occurred with the AI model: " ++ "boom") ∈
      (get_rewritten_text (fun _ => Except.error "boom") "hi" "Neutral" "Female" "").2 ∧
    (generate_audio (fun _ _ => Except.error "bad") "text" "Female" "narration.mp3").1 = none ∧
    Event.errorMsg ("Failed to generate audio: " ++ "bad") ∈
      (generate_audio (fun _ _ => Except.error "bad") "text" "Female" "narration.mp3").2 :=
  C1_remote_failures_caught (fun _ => Except.error "boom") (fun _ _ => Except.error "bad")
    "hi" "Neutral" "Female" "" "text" "Female" "boom" "bad" (by decide) rfl rfl

/-- Claim C2: in every successful run of the generate-button handler,
a rewrite call happens only when the collected original text is
non-empty after stripping, a speech call only when the stored rewritten
text is non-empty, and a blank original text causes no remote call at
all, only the warning message. -/
theorem C2_calls_guarded (env : Env) (st0 : AppState) (uploaded : Option UploadedFile)
    (ti tone gender pa : String) (st1 : AppState) (evs : List Event)
    (h : handleGenerate env st0 uploaded ti tone gender pa = Except.ok (st1, evs)) :
    (pyStrip st1.original_text = "" →
        callsOf evs = [] ∧ Event.warningMsg warnMsg ∈ evs) ∧
    (∀ p, Event.rewriteCall p ∈ evs → pyStrip st1.original_text ≠ "") ∧
    (∀ t v, Event.speechCall t v ∈ evs → st1.rewritten_text ≠ "") := by
  obtain ⟨ot, evs1, hc, hst, hevs⟩ :=
    handleGenerate_ok env st0 uploaded ti tone gender pa st1 evs h
  have he1 := collectOriginal_ok_events st0 uploaded ti ot evs1 hc
  rcases runGeneration_cases env { st0 with original_text := ot } tone gender pa with
    ⟨hb, hr⟩ | ⟨hb, e, hre, hr⟩ | ⟨hb, hre, hr⟩ |
    ⟨hb, t, ht, hre, ⟨e2, hts, hr⟩ | ⟨hts, hr⟩⟩ <;>
  rw [hr] at hst hevs <;>
  rcases he1 with rfl | ⟨e0, rfl⟩ <;>
  subst hst <;> subst hevs <;>
  simp_all [callsOf, Event.isRemoteCall]

theorem C2_calls_guarded_witness :
    callsOf [Event.warningMsg warnMsg] = [] ∧
    Event.warningMsg warnMsg ∈ [Event.warningMsg warnMsg] :=
  (C2_calls_guarded env0 st00 none "" "Neutral" "Female" "" st00
    [Event.warningMsg warnMsg] rfl).1 rfl

/-- Claim C4: every successful press of the generate button attempts at
most one rewrite call and at most one speech call, in that serial
order, the speech call happening only when the stored rewritten text is
non-empty; no call is ever repeated (so no retry). -/
theorem C4_serial_single_calls (env : Env) (st0 : AppState) (uploaded : Option UploadedFile)
    (ti tone gender pa : String) (st1 : AppState) (evs : List Event)
    (h : handleGenerate env st0 uploaded ti tone gender pa = Except.ok (st1, evs)) :
    callsOf evs = [] ∨
    callsOf evs = [Event.rewriteCall (mkPrompt st1.original_text tone gender pa)] ∨
    (callsOf evs = [Event.rewriteCall (mkPrompt st1.original_text tone gender pa),
                    Event.speechCall st1.rewritten_text (voiceFor gender)] ∧
      st1.rewritten_text ≠ "") := by
  obtain ⟨ot, evs1, hc, hst, hevs⟩ :=
    handleGenerate_ok env st0 uploaded ti tone gender pa st1 evs h
  have he1 := collectOriginal_ok_events st0 uploaded ti ot evs1 hc
  rcases runGeneration_cases env { st0 with original_text := ot } tone gender pa with
    ⟨hb, hr⟩ | ⟨hb, e, hre, hr⟩ | ⟨hb, hre, hr⟩ |
    ⟨hb, t, ht, hre, ⟨e2, hts, hr⟩ | ⟨hts, hr⟩⟩ <;>
  rw [hr] at hst hevs <;>
  rcases he1 with rfl | ⟨e0, rfl⟩ <;>
  subst hst <;> subst hevs
  · exact Or.inl (by simp [callsOf, Event.isRemoteCall])
  · exact Or.inl (by simp [callsOf, Event.isRemoteCall])
  · exact Or.inr (Or.inl (by simp [callsOf, Event.isRemoteCall]))
  · exact Or.inr (Or.inl (by simp [callsOf, Event.isRemoteCall]))
  · exact Or.inr (Or.inl (by simp [callsOf, Event.isRemoteCall]))
  · exact Or.inr (Or.inl (by simp [callsOf, Event.isRemoteCall]))
  · exact Or.inr (Or.inr ⟨by simp [callsOf, Event.isRemoteCall], by simpa using ht⟩)
  · exact Or.inr (Or.inr ⟨by simp [callsOf, Event.isRemoteCall], by simpa using ht⟩)
  · exact Or.inr (Or.inr ⟨by simp [callsOf, Event.isRemoteCall], by simpa using ht⟩)
  · exact Or.inr (Or.inr ⟨by simp [callsOf, Event.isRemoteCall], by simpa using ht⟩)

theorem C4_serial_single_calls_witness :
    callsOf evsFull = [] ∨
    callsOf evsFull = [Event.rewriteCall (mkPrompt stFull.original_text "Neutral" "Female" "")] ∨
    (callsOf evsFull = [Event.rewriteCall (mkPrompt stFull.original_text "Neutral" "Female" ""),
                        Event.speechCall stFull.rewritten_text (voiceFor "Female")] ∧
      stFull.rewritten_text ≠ "") :=
  C4_serial_single_calls env0 st00 none "hi" "Neutral" "Female" "" stFull evsFull rfl

theorem pyStrip_empty : pyStrip "" = "" := rfl

/-- Claim C3: for every original text that is non-blank, when the
remote rewrite call succeeds `get_rewritten_text` returns the response
text verbatim, and the handler stores exactly that text in the session
with no local transformation. -/
theorem C3_rewritten_text_verbatim (env : Env) (st0 : AppState)
    (ti tone gender pa t : String)
    (hti : pyStrip ti ≠ "")
    (hok : env.rewrite (mkPrompt ti tone gender pa) = Except.ok t) :
    get_rewritten_text env.rewrite ti tone gender pa =
      (t, [Event.rewriteCall (mkPrompt ti tone gender pa)]) ∧
    ∀ st1 evs, handleGenerate env st0 none ti tone gender pa = Except.ok (st1, evs) →
      st1.rewritten_text = t := by
  have hne : ti ≠ "" := ne_empty_of_strip_ne_empty hti
  refine ⟨by simp [get_rewritten_text, hne, hok], ?_⟩
  intro st1 evs h
  obtain ⟨ot, evs1, hc, hst, hevs⟩ :=
    handleGenerate_ok env st0 none ti tone gender pa st1 evs h
  simp [collectOriginal] at hc
  obtain ⟨h1, h2⟩ := hc
  subst h1
  rcases runGeneration_cases env { st0 with original_text := ti } tone gender pa with
    ⟨hb, hr⟩ | ⟨hb, e, hre, hr⟩ | ⟨hb, hre, hr⟩ |
    ⟨hb, t2, ht2, hre, ⟨e2, hts, hr⟩ | ⟨hts, hr⟩⟩
  · simp at hb
    exact absurd hb hti
  · simp at hre
    rw [hok] at hre
    cases hre
  · simp at hre
    rw [hok] at hre
    injection hre with ht0
    rw [hr] at hst
    subst hst
    simp [ht0]
  · simp at hre
    rw [hok] at hre
    injection hre with ht0
    rw [hr] at hst
    subst hst
    simp [ht0]
  · simp at hre
    rw [hok] at hre
    injection hre with ht0
    rw [hr] at hst
    subst hst
    simp [ht0]

theorem C3_rewritten_text_verbatim_witness :
    get_rewritten_text env0.rewrite "hi" "Neutral" "Female" "" =
      ("ok", [Event.rewriteCall (mkPrompt "hi" "Neutral" "Female" "")]) ∧
    stFull.rewritten_text = "ok" :=
  ⟨(C3_rewritten_text_verbatim env0 st00 "hi" "Neutral" "Female" "" "ok"
      (by decide) rfl).1,
   (C3_rewritten_text_verbatim env0 st00 "hi" "Neutral" "Female" "" "ok"
      (by decide) rfl).2 stFull evsFull rfl⟩

/-- Claim C9: when the speech call of a new generation fails
(`generate_audio` returns `None`), the handler stores the new rewritten
text but leaves the session audio bytes untouched, so audio from an
earlier successful generation stays displayed and downloadable next to
the new rewritten text. -/
theorem C9_audio_preserved_on_tts_failure (env : Env) (st0 : AppState)
    (ti tone gender pa t e : String)
    (hti : pyStrip ti ≠ "")
    (hok : env.rewrite (mkPrompt ti tone gender pa) = Except.ok t)
    (ht : t ≠ "")
    (htts : env.tts t (voiceFor gender) = Except.error e) :
    handleGenerate env st0 none ti tone gender pa =
      Except.ok ({ st0 with original_text := ti, rewritten_text := t },
        [Event.spinnerMsg spinMsg,
         Event.rewriteCall (mkPrompt ti tone gender pa),
         Event.speechCall t (voiceFor gender),
         Event.errorMsg ("Failed to generate audio: " ++ e),
         Event.errorMsg audioFailMsg]) ∧
    ({ st0 with original_text := ti, rewritten_text := t } : AppState).audio_file =
      st0.audio_file ∧
    ∀ bytes, st0.audio_file = some bytes → bytes ≠ [] →
      Event.downloadButton "📥 Download MP3" bytes "echoverse_narration.mp3" "audio/mp3" ∈
        renderResults { st0 with original_text := ti, rewritten_text := t } := by
  have hne : ti ≠ "" := ne_empty_of_strip_ne_empty hti
  refine ⟨?_, rfl, ?_⟩
  · simp [handleGenerate, collectOriginal, runGeneration, get_rewritten_text,
          generate_audio, hne, hti, hok, ht, htts]
  · intro bytes hbs hbne
    simp [renderResults, ht, hbs, hbne]

theorem C9_audio_preserved_on_tts_failure_witness :
    handleGenerate envFail stPrev none "hi" "Neutral" "Female" "" =
      Except.ok ({ stPrev with original_text := "hi", rewritten_text := "ok" },
        [Event.spinnerMsg spinMsg,
         Event.rewriteCall (mkPrompt "hi" "Neutral" "Female" ""),
         Event.speechCall "ok" (voiceFor "Female"),
         Event.errorMsg ("Failed to generate audio: " ++ "tts down"),
         Event.errorMsg audioFailMsg]) ∧
    Event.downloadButton "📥 Download MP3" [5] "echoverse_narration.mp3" "audio/mp3" ∈
      renderResults { stPrev with original_text := "hi", rewritten_text := "ok" } :=
  ⟨(C9_audio_preserved_on_tts_failure envFail stPrev "hi" "Neutral" "Female" ""
      "ok" "tts down" (by decide) rfl (by decide) rfl).1,
   (C9_audio_preserved_on_tts_failure envFail stPrev "hi" "Neutral" "Female" ""
      "ok" "tts down" (by decide) rfl (by decide) rfl).2.2 [5] rfl (by decide)⟩

/-- Claim C8: when a file is uploaded, the pasted text is ignored
entirely (the handler's result does not depend on it) and the uploaded
file's content becomes the original text: the decoded bytes for a
text/plain upload, the joined paragraphs for a docx upload.  The pasted
text is used only when no file is uploaded. -/
theorem C8_uploaded_file_precedence (env : Env) (st0 : AppState) (f : UploadedFile)
    (t1 t2 tone gender pa : String) :
    handleGenerate env st0 (some f) t1 tone gender pa =
      handleGenerate env st0 (some f) t2 tone gender pa ∧
    (∀ s, f.ftype = "text/plain" → f.txtContent = Except.ok s →
      ∀ st1 evs, handleGenerate env st0 (some f) t1 tone gender pa = Except.ok (st1, evs) →
        st1.original_text = s) ∧
    (∀ paras, f.ftype = docxMime → f.docxParas = Except.ok paras →
      ∀ st1 evs, handleGenerate env st0 (some f) t1 tone gender pa = Except.ok (st1, evs) →
        st1.original_text = String.intercalate "\n" paras) ∧
    (∀ st1 evs, handleGenerate env st0 none t1 tone gender pa = Except.ok (st1, evs) →
        st1.original_text = t1) := by
  refine ⟨rfl, ?_, ?_, ?_⟩
  · intro s hf hcont st1 evs h
    obtain ⟨ot, evs1, hc, hst, hevs⟩ :=
      handleGenerate_ok env st0 (some f) t1 tone gender pa st1 evs h
    simp [collectOriginal, hf, hcont] at hc
    obtain ⟨h1, h2⟩ := hc
    subst h1
    rw [hst, runGeneration_original]
  · intro paras hf hd st1 evs h
    obtain ⟨ot, evs1, hc, hst, hevs⟩ :=
      handleGenerate_ok env st0 (some f) t1 tone gender pa st1 evs h
    simp [collectOriginal, hf, hd, read_docx, docxMime] at hc
    obtain ⟨h1, h2⟩ := hc
    subst h1
    rw [hst, runGeneration_original]
  · intro st1 evs h
    obtain ⟨ot, evs1, hc, hst, hevs⟩ :=
      handleGenerate_ok env st0 none t1 tone gender pa st1 evs h
    simp [collectOriginal] at hc
    obtain ⟨h1, h2⟩ := hc
    subst h1
    rw [hst, runGeneration_original]

theorem C8_uploaded_file_precedence_witness :
    handleGenerate env0 st00 (some fileTxt) "pasted one" "Neutral" "Female" "" =
      handleGenerate env0 st00 (some fileTxt) "pasted two" "Neutral" "Female" "" ∧
    stC8.original_text = "hello" :=
  ⟨(C8_uploaded_file_precedence env0 st00 fileTxt "pasted one" "pasted two"
      "Neutral" "Female" "").1,
   (C8_uploaded_file_precedence env0 st00 fileTxt "pasted one" "pasted two"
      "Neutral" "Female" "").2.1 "hello" rfl rfl stC8 evsC8 rfl⟩

/-- Claim C5 counterexample: an uploaded plain-text file whose bytes
fail UTF-8 decoding makes the generate-button handler itself raise: the
run ends in `Except.error` (an uncaught exception escaping the
handler), not in an inline message, refuting the claim that every
unreadable upload is caught at the call site. -/
theorem C5_counterexample :
    handleGenerate env0 st00 (some badTxtFile) "" "Neutral" "Female" "" =
      Except.error "UnicodeDecodeError: invalid start byte" := rfl

/-- Claim C5 amended: an unreadable word-processing (docx) upload is
caught inside `read_docx` and surfaced as an inline error message, with
no exception escaping the handler; but a plain-text upload whose bytes
cannot be decoded is NOT caught: the `UnicodeDecodeError` propagates
out of the handler. -/
theorem C5_docx_caught_txt_uncaught (env : Env) (st0 : AppState)
    (f g : UploadedFile) (ti tone gender pa e1 e2 : String)
    (hf : f.ftype = docxMime) (he : f.docxParas = Except.error e1)
    (hg : g.ftype = "text/plain") (hge : g.txtContent = Except.error e2) :
    handleGenerate env st0 (some f) ti tone gender pa =
      Except.ok ({ st0 with original_text := "" },
        [Event.errorMsg ("Error reading DOCX file: " ++ e1),
         Event.warningMsg warnMsg]) ∧
    handleGenerate env st0 (some g) ti tone gender pa = Except.error e2 := by
  constructor
  · simp [handleGenerate, collectOriginal, read_docx, runGeneration,
          pyStrip_empty, hf, he, docxMime]
  · simp [handleGenerate, collectOriginal, hg, hge]

theorem C5_docx_caught_txt_uncaught_witness :
    handleGenerate env0 st00 (some badDocxFile) "z" "Neutral" "Female" "" =
      Except.ok ({ st00 with original_text := "" },
        [Event.errorMsg ("Error reading DOCX file: " ++ "corrupt"),
         Event.warningMsg warnMsg]) ∧
    handleGenerate env0 st00 (some badTxtFile) "z" "Neutral" "Female" "" =
      Except.error "UnicodeDecodeError: invalid start byte" :=
  C5_docx_caught_txt_uncaught env0 st00 badDocxFile badTxtFile "z" "Neutral" "Female" ""
    "corrupt" "UnicodeDecodeError: invalid start byte" rfl rfl rfl rfl
